import Mathlib

/-!
Shallow embedding of the aggregation/cache-refresh engine of `app.py`
(Funny Affirmations service) and proofs about its specified behaviour.

Python strings are modelled as `List Char`; machine time as `Int`
(Python arithmetic on `time.time()` never wraps); fallible fetches as
`Except String (List Item)` — the outcome list that `asyncio.gather`
returns with `return_exceptions=True`.
-/

namespace PickMeUp

/-- Python `str.lower()` applied characterwise (the denylist and all casing
claims only involve ASCII characters, on which `Char.toLower` agrees with
Python's `str.lower`). -/
def pyLower (s : List Char) : List Char := s.map Char.toLower

/-- Python `str.strip()`: remove leading and trailing whitespace. -/
def pyStrip (s : List Char) : List Char :=
  ((s.dropWhile Char.isWhitespace).reverse.dropWhile Char.isWhitespace).reverse

/-- Python `s.split(chr(10), 1)[0]`: the part of `s` before its first newline. -/
def firstLine (s : List Char) : List Char := s.takeWhile (fun c => !(c == '\n'))

/-- Python substring membership `needle in hay`. -/
def pyContains (needle : List Char) : List Char → Bool
  | [] => needle.isEmpty
  | c :: t => needle.isPrefixOf (c :: t) || pyContains needle t

/-- The hard-coded denylist of `_looks_funny` (`app.py` line 86). -/
def banned : List (List Char) := ["suicide".data, "politics".data, "trigger".data]

/-- Embeds `_looks_funny` (`app.py` lines 80–90): rejects falsy (empty) text,
text longer than 250 characters, and text whose lowercasing contains a
denylisted term. -/
def looks_funny (text : List Char) : Bool :=
  if text.isEmpty then false
  else if 250 < text.length then false
  else if banned.any (fun b => pyContains b (pyLower text)) then false
  else true

/-- One raw post record as `fetch_subreddit_top` reads it out of the feed
JSON, with Python's `or`-defaulting already applied:
`title` is `d.get("title") or ""`, `selftext` is `d.get("selftext") or ""`,
`url` is `d.get("url_overridden_by_dest") or d.get("url") or ""`,
`is_gallery` is the truthiness of `d.get("is_gallery")`,
`ups` is `d.get("ups", 0)`. -/
structure RawPost where
  title : List Char
  selftext : List Char
  post_hint : Option (List Char)
  is_gallery : Bool
  url : List Char
  permalink : List Char
  ups : Int
deriving DecidableEq

/-- The `post_hint` values skipped by `fetch_subreddit_top` (line 108). -/
def mediaHints : List (List Char) :=
  ["image".data, "hosted:video".data, "rich:video".data, "link".data]

/-- The media file extensions skipped by `fetch_subreddit_top` (line 109). -/
def mediaExts : List (List Char) :=
  [".jpg".data, ".jpeg".data, ".png".data, ".gif".data,
   ".webp".data, ".mp4".data, ".gifv".data, ".webm".data]

/-- The media-skip condition of `fetch_subreddit_top` (lines 105–111). -/
def isMediaPost (p : RawPost) : Bool :=
  p.is_gallery
    || (match p.post_hint with
        | some h => mediaHints.contains h
        | none => false)
    || mediaExts.any (fun e => e.isSuffixOf (pyLower p.url))

/-- One cleaned item as built by `fetch_subreddit_top` (lines 123–128). -/
structure Item where
  line : List Char
  permalink : List Char
  subreddit : List Char
  ups : Int
deriving DecidableEq

def redditBase : List Char := "https://www.reddit.com".data

/-- Embeds one iteration of the cleaning loop of `fetch_subreddit_top`
(`app.py` lines 102–128): skip media posts, prefer the stripped title when
`_looks_funny` accepts it, otherwise use the stripped first line of the
stripped selftext when `_looks_funny` accepts the whole selftext, otherwise
skip the post. -/
def extract (sub : List Char) (p : RawPost) : Option Item :=
  if isMediaPost p then none
  else
    let title := pyStrip p.title
    let selftext := pyStrip p.selftext
    let line := if looks_funny title then title
      else if looks_funny selftext then pyStrip (firstLine selftext) else []
    if line.isEmpty then none
    else some { line := line, permalink := redditBase ++ p.permalink,
                subreddit := sub, ups := p.ups }

/-- The cleaning loop of `fetch_subreddit_top` over the parsed posts. -/
def fetch_subreddit_top (sub : List Char) (posts : List RawPost) : List Item :=
  posts.filterMap (extract sub)

/-- The dedup key of `refresh_cache` line 150: the lowercased line. -/
def lineKey (it : Item) : List Char := pyLower it.line

/-- Association-list lookup, modelling `dedup[key]` / `key not in dedup`
on Python's insertion-ordered dict. -/
def lookupKey (k : List Char) : List (List Char × Item) → Option Item
  | [] => none
  | (k', v) :: t => if k' = k then some v else lookupKey k t

/-- Association-list in-place value replacement, modelling `dedup[key] = it`
for a key that is already present (the entry keeps its position). -/
def updateKey (k : List Char) (v : Item) : List (List Char × Item) → List (List Char × Item)
  | [] => []
  | (k', v') :: t => (k', if k' = k then v else v') :: updateKey k v t

/-- One iteration of the dedup loop of `refresh_cache` (lines 149–152):
`if key not in dedup or it.ups > dedup[key].ups: dedup[key] = it`. -/
def dedupStep (acc : List (List Char × Item)) (it : Item) : List (List Char × Item) :=
  match lookupKey (lineKey it) acc with
  | none => acc ++ [(lineKey it, it)]
  | some old => if old.ups < it.ups then updateKey (lineKey it) it acc else acc

/-- The dict built by the dedup loop of `refresh_cache` (lines 148–152). -/
def dedupTable (items : List Item) : List (List Char × Item) := items.foldl dedupStep []

/-- `list(dedup.values())` (`refresh_cache` line 155). -/
def dedupe (items : List Item) : List Item := (dedupTable items).map Prod.snd

/-- The exception the merge loop actually raises on a failed fetch:
`app.py` never imports `sys` (its import block is `time, random, typing,
fastapi, httpx, os, asyncio`), so evaluating `sys.stderr` on line 145
raises `NameError`. -/
def pyNameError : String := "NameError: name sys is not defined"

/-- The merge loop of `refresh_cache` (lines 141–147) as the program
actually executes it: iterate over the gathered results in order, extending
`all_items` with each successful per-topic result; on the first result that
is an exception, line 145 evaluates `sys.stderr` with `sys` unimported and
raises `NameError`, aborting the loop. Only an all-success results list
produces a merged item list. -/
def allItems : List (Except String (List Item)) → Except String (List Item)
  | [] => Except.ok []
  | Except.error _ :: _ => Except.error pyNameError
  | Except.ok xs :: t =>
    match allItems t with
    | Except.ok rest => Except.ok (xs ++ rest)
    | Except.error e => Except.error e

/-- The configured topics (`app.py` lines 20–28). -/
def SUBREDDITS : List (List Char) :=
  ["UnusualAffirmations".data, "PickupLines".data, "Showerthoughts".data,
   "Oneliners".data, "punny".data, "contagiouslaughter".data, "funny".data]

/-- The hard-coded fallback set (`app.py` lines 31–69). -/
def FALLBACK_AFFIRMATIONS : List Item :=
  [{ line := "You are as brilliant as a firefly in a jar, which is to say, you are a source of light in a confined space.".data,
     permalink := "https://www.reddit.com/r/UnusualAffirmations/".data,
     subreddit := "UnusualAffirmations".data, ups := 1337 },
   { line := "If you were a vegetable, you’d be a cute-cumber.".data,
     permalink := "https://www.reddit.com/r/PickupLines/".data,
     subreddit := "PickupLines".data, ups := 9001 },
   { line := "Your socks probably match right now. And if they don't, you're a rebel who can't be contained.".data,
     permalink := "https://www.reddit.com/r/funny/".data,
     subreddit := "funny".data, ups := 5000 },
   { line := "This is the equation of you: U = QT".data,
     permalink := "https://www.reddit.com/r/PickupLines/".data,
     subreddit := "PickupLines".data, ups := 1500 },
   { line := "If every time I thought of you a snowflake fell from the sky, we'd be in the middle of a blizzard.".data,
     permalink := "https://www.reddit.com/r/PickupLines/".data,
     subreddit := "PickupLines".data, ups := 2500 },
   { line := "I used to play piano by ear, but now I use my hands.".data,
     permalink := "https://www.reddit.com/r/dadjokes/".data,
     subreddit := "dadjokes".data, ups := 1800 },
   { line := "Why don’t skeletons fight each other? They don’t have the guts.".data,
     permalink := "https://www.reddit.com/r/dadjokes/".data,
     subreddit := "dadjokes".data, ups := 2200 },
   { line := "What did the janitor say when he jumped out of the closet? “Supplies!”".data,
     permalink := "https://www.reddit.com/r/punny/".data,
     subreddit := "punny".data, ups := 1950 },
   { line := "I’m reading a book on the history of glue. I just can’t seem to put it down.".data,
     permalink := "https://www.reddit.com/r/dadjokes/".data,
     subreddit := "dadjokes".data, ups := 3100 }]

/-- `CACHE_TTL = 60 * 60` (`app.py` line 72). -/
def CACHE_TTL : Int := 60 * 60

/-- The in-memory cache `_cache = {"items": ..., "ts": ...}`. -/
structure Cache where
  items : List Item
  ts : Int
deriving DecidableEq

/-- The cache as initialised at process start (`app.py` line 73). -/
def initCache : Cache := { items := FALLBACK_AFFIRMATIONS, ts := 0 }

/-- The observable outcome of one `refresh_cache` call: the cache state
after the call (unchanged when the call raises), the number of outbound
fetch tasks the call issued, and the exception propagated to the caller,
if any. -/
structure RefreshOutcome where
  cache : Cache
  fetches : Nat
  raised : Option String
deriving DecidableEq

/-- Embeds `refresh_cache` (`app.py` lines 133–161). The per-topic fetch
outcomes are passed in as `results` (the list `asyncio.gather` returns with
`return_exceptions=True`, one entry per task, exceptions included). On the
fresh-cache early return (lines 136–137) nothing is fetched and the cache
is untouched. Otherwise the merge loop runs: if any gathered result is an
exception, line 145 raises `NameError` (`sys` is never imported), the
function aborts with the cache untouched and the exception reaches the
caller; on an all-success merge the deduped items are committed with
`ts := now` when non-empty, and the old items are kept with `ts := now`
when empty. -/
def refresh_cache (c : Cache) (now : Int) (results : List (Except String (List Item))) :
    RefreshOutcome :=
  if now - c.ts < CACHE_TTL ∧ c.items ≠ [] then { cache := c, fetches := 0, raised := none }
  else
    match allItems results with
    | Except.error e => { cache := c, fetches := SUBREDDITS.length, raised := some e }
    | Except.ok all_items =>
      let new_items := dedupe all_items
      if new_items ≠ [] then
        { cache := { items := new_items, ts := now }, fetches := SUBREDDITS.length,
          raised := none }
      else
        { cache := { items := c.items, ts := now }, fetches := SUBREDDITS.length,
          raised := none }

/-- Follows the spec's words for the Deduplicator's per-group choice:
"Within each group, keeps the item with the highest `popularity`; ties keep
whichever was encountered first in input order" — one step of scanning a
group in input order, replacing the current winner only on strictly higher
popularity. -/
def winnerStep (b : Option Item) (it : Item) : Option Item :=
  match b with
  | none => some it
  | some w => if w.ups < it.ups then some it else some w

/-- Follows the spec's words: the item a group (listed in input order)
should retain after deduplication. -/
def specWinner (group : List Item) : Option Item := group.foldl winnerStep none

/-- Every entry of the dedup dict keys its value by the value's lowercased
line. -/
def wellKeyed (acc : List (List Char × Item)) : Prop :=
  ∀ q ∈ acc, q.1 = lineKey q.2

/-- A non-media post with no title and a 271-character body whose first
line alone would pass the Content Filter. -/
def longBodyPost : RawPost :=
  { title := [], selftext := ("short joke".data) ++ ('\n' :: List.replicate 260 'a'),
    post_hint := none, is_gallery := false, url := [], permalink := [], ups := 0 }

/-- A non-media post whose title passes the Content Filter. -/
def titlePost : RawPost :=
  { title := ("Nice title".data), selftext := [], post_hint := none,
    is_gallery := false, url := [], permalink := ("/r/A/perma".data), ups := 4 }

/-- A non-media post with no title and a short two-line body. -/
def bodyPost : RawPost :=
  { title := [], selftext := ("first line".data) ++ ('\n' :: ("second line".data)),
    post_hint := none, is_gallery := false, url := [], permalink := [], ups := 6 }

/-! ### Helper lemmas about the Python string primitives -/

lemma pyContains_iff {needle hay : List Char} :
    pyContains needle hay = true ↔ needle <:+: hay := by
  induction hay with
  | nil =>
    simp [pyContains, List.isEmpty_iff, List.infix_nil]
  | cons c t ih =>
    simp only [pyContains, Bool.or_eq_true, ih, List.infix_cons_iff,
      List.isPrefixOf_iff_prefix]

lemma pyLower_preserves_sub {s t : List Char} (h : s <:+: t) : pyLower s <:+: pyLower t := by
  obtain ⟨pre, post, hpre⟩ := h
  exact ⟨pre.map Char.toLower, post.map Char.toLower, by
    rw [← hpre]; simp [pyLower]⟩

lemma looks_funny_ne_nil {t : List Char} (h : looks_funny t = true) : t ≠ [] := by
  intro he
  subst he
  simp [looks_funny] at h

lemma dropWhile_head_false {α : Type} (p : α → Bool) :
    ∀ (s : List α) {c : α} {t : List α}, s.dropWhile p = c :: t → p c = false := by
  intro s
  induction s with
  | nil => intro c t h; simp [List.dropWhile] at h
  | cons a s ih =>
    intro c t h
    rw [List.dropWhile_cons] at h
    by_cases hp : p a = true
    · rw [if_pos hp] at h
      exact ih h
    · rw [if_neg hp] at h
      cases h
      exact Bool.not_eq_true _ ▸ (Bool.eq_false_iff.mpr hp)

lemma pyStrip_head_not_ws {s : List Char} {c : Char} {t : List Char}
    (h : pyStrip s = c :: t) : c.isWhitespace = false := by
  have h2 := List.dropWhile_suffix
    (l := (s.dropWhile Char.isWhitespace).reverse) Char.isWhitespace
  have h3 := List.reverse_prefix.mpr h2
  rw [List.reverse_reverse] at h3
  obtain ⟨r, hr⟩ := h3
  rw [show ((s.dropWhile Char.isWhitespace).reverse.dropWhile Char.isWhitespace).reverse
      = pyStrip s from rfl, h] at hr
  exact dropWhile_head_false _ s hr.symm

lemma pyStrip_cons_ne_nil {c : Char} (hc : c.isWhitespace = false) (t : List Char) :
    pyStrip (c :: t) ≠ [] := by
  intro h
  have h0 : (c :: t).dropWhile Char.isWhitespace = c :: t := by
    rw [List.dropWhile_cons, if_neg (by simp [hc])]
  rw [pyStrip, h0, List.reverse_eq_nil_iff, List.dropWhile_eq_nil_iff] at h
  have hc2 := h c (by simp)
  rw [hc] at hc2
  cases hc2

lemma pyStrip_firstLine_ne_nil {s : List Char} (h : pyStrip s ≠ []) :
    pyStrip (firstLine (pyStrip s)) ≠ [] := by
  cases hps : pyStrip s with
  | nil => exact absurd hps h
  | cons c t =>
    have hcw : c.isWhitespace = false := pyStrip_head_not_ws hps
    have hcn : (c == '\n') = false := by
      cases hbeq : c == '\n'
      · rfl
      · exfalso
        have : c = '\n' := by simpa using hbeq
        subst this
        simp at hcw
    rw [firstLine, List.takeWhile_cons, if_pos (by simp [hcn])]
    exact pyStrip_cons_ne_nil hcw _

/-! ### Helper lemmas about the dedup dict -/

lemma lookupKey_append {k : List Char} {l1 l2 : List (List Char × Item)} :
    lookupKey k (l1 ++ l2) =
      (match lookupKey k l1 with
       | some v => some v
       | none => lookupKey k l2) := by
  induction l1 with
  | nil => rfl
  | cons hd tl ih =>
    obtain ⟨k', v⟩ := hd
    by_cases h : k' = k <;> simp [lookupKey, h, ih]

lemma lookupKey_updateKey_self {k : List Char} {v : Item} {acc : List (List Char × Item)} :
    lookupKey k (updateKey k v acc) = (lookupKey k acc).map (fun _ => v) := by
  induction acc with
  | nil => rfl
  | cons hd tl ih =>
    obtain ⟨k', v'⟩ := hd
    by_cases h : k' = k <;> simp [lookupKey, updateKey, h, ih]

lemma lookupKey_updateKey_ne {k k' : List Char} {v : Item} {acc : List (List Char × Item)}
    (h : k' ≠ k) : lookupKey k (updateKey k' v acc) = lookupKey k acc := by
  induction acc with
  | nil => rfl
  | cons hd tl ih =>
    obtain ⟨ka, va⟩ := hd
    by_cases hk : ka = k
    · subst hk
      simp [lookupKey, updateKey, fun hh : ka = k' => h (hh ▸ rfl)]
      intro hh
      exact absurd hh.symm h
    · simp [lookupKey, updateKey, hk, ih]

lemma lookupKey_dedupStep_ne {k : List Char} {it : Item} {acc : List (List Char × Item)}
    (h : lineKey it ≠ k) : lookupKey k (dedupStep acc it) = lookupKey k acc := by
  cases hl : lookupKey (lineKey it) acc with
  | none =>
    simp only [dedupStep, hl]
    rw [lookupKey_append]
    cases hacc : lookupKey k acc <;> simp [lookupKey, h]
  | some old =>
    simp only [dedupStep, hl]
    by_cases hu : old.ups < it.ups
    · rw [if_pos hu]
      exact lookupKey_updateKey_ne h
    · rw [if_neg hu]

lemma lookupKey_dedupStep_self {it : Item} {acc : List (List Char × Item)} :
    lookupKey (lineKey it) (dedupStep acc it) =
      winnerStep (lookupKey (lineKey it) acc) it := by
  cases hl : lookupKey (lineKey it) acc with
  | none =>
    simp only [dedupStep, hl]
    rw [lookupKey_append, hl]
    simp [lookupKey, winnerStep]
  | some old =>
    simp only [dedupStep, hl]
    by_cases hu : old.ups < it.ups
    · rw [if_pos hu, winnerStep]
      simp [lookupKey_updateKey_self, hl, hu]
    · rw [if_neg hu, winnerStep]
      simp [hl, hu]

lemma lookupKey_foldl (k : List Char) :
    ∀ (items : List Item) (acc : List (List Char × Item)),
      lookupKey k (items.foldl dedupStep acc) =
        (items.filter (fun it => decide (lineKey it = k))).foldl winnerStep
          (lookupKey k acc) := by
  intro items
  induction items with
  | nil => intro acc; rfl
  | cons it rest ih =>
    intro acc
    rw [List.foldl_cons, ih, List.filter_cons]
    by_cases h : lineKey it = k
    · rw [if_pos (by simp [h]), List.foldl_cons, ← h, lookupKey_dedupStep_self]
    · rw [if_neg (by simp [h]), lookupKey_dedupStep_ne h]

lemma wellKeyed_updateKey {k : List Char} {v : Item} {acc : List (List Char × Item)}
    (hv : k = lineKey v) (h : wellKeyed acc) : wellKeyed (updateKey k v acc) := by
  induction acc with
  | nil => intro q hq; cases hq
  | cons hd tl ih =>
    obtain ⟨ka, va⟩ := hd
    intro q hq
    rw [updateKey] at hq
    rcases List.mem_cons.mp hq with hq1 | hq2
    · subst hq1
      by_cases hk : ka = k
      · simp only [if_pos hk]
        rw [hk, hv]
      · simp only [if_neg hk]
        exact h (ka, va) (List.mem_cons_self _ _)
    · exact ih (fun q hq => h q (List.mem_cons_of_mem _ hq)) q hq2

lemma wellKeyed_dedupStep {acc : List (List Char × Item)} {it : Item}
    (h : wellKeyed acc) : wellKeyed (dedupStep acc it) := by
  cases hl : lookupKey (lineKey it) acc with
  | none =>
    simp only [dedupStep, hl]
    intro q hq
    rcases List.mem_append.mp hq with hq1 | hq2
    · exact h q hq1
    · rw [List.mem_singleton.mp hq2]
  | some old =>
    simp only [dedupStep, hl]
    by_cases hu : old.ups < it.ups
    · rw [if_pos hu]
      exact wellKeyed_updateKey rfl h
    · rw [if_neg hu]
      exact h

lemma keys_updateKey {k : List Char} {v : Item} {acc : List (List Char × Item)} :
    (updateKey k v acc).map Prod.fst = acc.map Prod.fst := by
  induction acc with
  | nil => rfl
  | cons hd tl ih =>
    obtain ⟨ka, va⟩ := hd
    simp [updateKey, ih]

lemma lookupKey_eq_none_iff {k : List Char} {acc : List (List Char × Item)} :
    lookupKey k acc = none ↔ k ∉ acc.map Prod.fst := by
  induction acc with
  | nil => simp [lookupKey]
  | cons hd tl ih =>
    obtain ⟨ka, va⟩ := hd
    by_cases hk : ka = k
    · subst hk
      have hlk : lookupKey ka ((ka, va) :: tl) = some va := by
        simp [lookupKey]
      rw [hlk]
      simp only [List.map_cons, List.mem_cons]
      constructor
      · intro hs
        cases hs
      · intro hmem
        exact absurd (Or.inl trivial) hmem
    · have hlk : lookupKey k ((ka, va) :: tl) = lookupKey k tl := by
        simp [lookupKey, hk]
      rw [hlk, ih]
      simp only [List.map_cons, List.mem_cons]
      constructor
      · intro hn hmem
        rcases hmem with h1 | h2
        · exact hk h1.symm
        · exact hn h2
      · intro hn h2
        exact hn (Or.inr h2)

lemma keysNodup_dedupStep {acc : List (List Char × Item)} {it : Item}
    (h : (acc.map Prod.fst).Nodup) : ((dedupStep acc it).map Prod.fst).Nodup := by
  cases hl : lookupKey (lineKey it) acc with
  | none =>
    simp only [dedupStep, hl]
    rw [List.map_append, List.nodup_append]
    refine ⟨h, by simp, ?_⟩
    simp only [List.map_cons, List.map_nil, List.disjoint_singleton]
    exact lookupKey_eq_none_iff.mp hl
  | some old =>
    simp only [dedupStep, hl]
    by_cases hu : old.ups < it.ups
    · rw [if_pos hu, keys_updateKey]
      exact h
    · rw [if_neg hu]
      exact h

lemma mem_iff_lookupKey {k : List Char} {v : Item} {acc : List (List Char × Item)}
    (hnd : (acc.map Prod.fst).Nodup) : (k, v) ∈ acc ↔ lookupKey k acc = some v := by
  induction acc with
  | nil => simp [lookupKey]
  | cons hd tl ih =>
    obtain ⟨ka, va⟩ := hd
    rw [List.map_cons, List.nodup_cons] at hnd
    by_cases hk : ka = k
    · subst hk
      have hlk : lookupKey ka ((ka, va) :: tl) = some va := by
        simp [lookupKey]
      rw [hlk]
      constructor
      · intro hm
        rcases List.mem_cons.mp hm with h1 | h2
        · rw [Option.some.injEq]
          exact (Prod.ext_iff.mp h1).2.symm
        · exact absurd (List.mem_map.mpr ⟨_, h2, rfl⟩) hnd.1
      · intro hs
        rw [Option.some.injEq] at hs
        subst hs
        exact List.mem_cons_self _ _
    · have hlk : lookupKey k ((ka, va) :: tl) = lookupKey k tl := by
        simp [lookupKey, hk]
      rw [hlk, ← ih hnd.2]
      constructor
      · intro hm
        rcases List.mem_cons.mp hm with h1 | h2
        · exact absurd (Prod.ext_iff.mp h1).1.symm hk
        · exact h2
      · intro hm
        exact List.mem_cons_of_mem _ hm

lemma foldl_dedupStep_invariant (P : List (List Char × Item) → Prop)
    (hstep : ∀ acc it, P acc → P (dedupStep acc it)) :
    ∀ (items : List Item) (acc : List (List Char × Item)),
      P acc → P (items.foldl dedupStep acc) := by
  intro items
  induction items with
  | nil => intro acc h; exact h
  | cons it t ih => intro acc h; exact ih _ (hstep _ _ h)

lemma dedupTable_wellKeyed (items : List Item) : wellKeyed (dedupTable items) := by
  refine foldl_dedupStep_invariant wellKeyed (fun _ _ => wellKeyed_dedupStep) items [] ?_
  intro q hq
  cases hq

lemma dedupTable_keysNodup (items : List Item) :
    ((dedupTable items).map Prod.fst).Nodup := by
  refine foldl_dedupStep_invariant (fun acc => (acc.map Prod.fst).Nodup)
    (fun _ _ => keysNodup_dedupStep) items [] ?_
  simp

lemma foldl_dedupStep_fresh :
    ∀ (l : List Item) (acc : List (List Char × Item)),
      (l.map lineKey).Nodup →
      (∀ it ∈ l, lookupKey (lineKey it) acc = none) →
      l.foldl dedupStep acc = acc ++ l.map (fun it => (lineKey it, it)) := by
  intro l
  induction l with
  | nil => intro acc _ _; simp
  | cons it t ih =>
    intro acc hnd hfresh
    rw [List.foldl_cons]
    have h0 : lookupKey (lineKey it) acc = none := hfresh it (List.mem_cons_self _ _)
    have hstep : dedupStep acc it = acc ++ [(lineKey it, it)] := by
      simp only [dedupStep, h0]
    rw [List.map_cons, List.nodup_cons] at hnd
    rw [hstep, ih _ hnd.2 ?_, List.append_assoc, List.map_cons]
    · rfl
    · intro jt hjt
      rw [lookupKey_append, hfresh jt (List.mem_cons_of_mem _ hjt)]
      have hne : lineKey it ≠ lineKey jt := by
        intro he
        exact hnd.1 (he ▸ List.mem_map.mpr ⟨jt, hjt, rfl⟩)
      simp [lookupKey, hne]

/-! ### Claim theorems -/

/-- Claim C7: the Content Filter returns `false` on every string longer than
250 characters, and on every string that contains a denylisted term in any
casing (a substring whose lowercasing is a denylisted term). -/
theorem looks_funny_rejects_long_and_banned :
    (∀ t : List Char, 250 < t.length → looks_funny t = false) ∧
    (∀ t s : List Char, s <:+: t → pyLower s ∈ banned → looks_funny t = false) := by
  constructor
  · intro t ht
    unfold looks_funny
    by_cases he : t.isEmpty
    · rw [if_pos he]
    · rw [if_neg he, if_pos ht]
  · intro t s hinf hmem
    have hb : banned.any (fun b => pyContains b (pyLower t)) = true :=
      List.any_eq_true.mpr ⟨pyLower s, hmem, pyContains_iff.mpr (pyLower_preserves_sub hinf)⟩
    unfold looks_funny
    by_cases he : t.isEmpty
    · rw [if_pos he]
    · rw [if_neg he]
      by_cases hl : 250 < t.length
      · rw [if_pos hl]
      · rw [if_neg hl, if_pos hb]

/-- Claim C7 witness: a 251-character string and a mixed-case occurrence of
a denylisted term are both rejected. -/
theorem looks_funny_rejects_long_and_banned_witness :
    looks_funny (List.replicate 251 'a') = false ∧
      looks_funny ("SuIcIdE".data) = false :=
  ⟨looks_funny_rejects_long_and_banned.1 (List.replicate 251 'a')
     (by rw [List.length_replicate]; norm_num),
   looks_funny_rejects_long_and_banned.2 ("SuIcIdE".data) ("SuIcIdE".data)
     (List.infix_refl _) (by decide)⟩

/-- Claim C4 counterexample: a single space is a whitespace-only string, yet
the Content Filter accepts it — `_looks_funny` only rejects falsy (empty)
strings, not non-empty whitespace-only ones. -/
theorem looks_funny_whitespace_cex :
    (' ' : Char).isWhitespace = true ∧ looks_funny [' '] = true := by decide

/-- Claim C4 as amended: the Content Filter returns `false` on the empty
string; whitespace-only text is not rejected by the filter itself, but both
call sites strip their text before filtering, and every whitespace-only
string strips to the empty string, which the filter rejects. -/
theorem looks_funny_empty_and_stripped :
    looks_funny [] = false ∧
      ∀ s : List Char, (∀ c ∈ s, c.isWhitespace = true) →
        looks_funny (pyStrip s) = false := by
  refine ⟨rfl, ?_⟩
  intro s hs
  have h1 : s.dropWhile Char.isWhitespace = [] := List.dropWhile_eq_nil_iff.mpr hs
  unfold pyStrip
  rw [h1]
  rfl

/-- Claim C4 witness: a two-space string strips to empty and is rejected. -/
theorem looks_funny_empty_and_stripped_witness :
    looks_funny (pyStrip [' ', ' ']) = false :=
  looks_funny_empty_and_stripped.2 [' ', ' '] (by decide)

/-- Claim C10: a raw item whose `post_hint` is "link" is rejected by the
extractor regardless of any other field. -/
theorem extract_rejects_link_posts :
    ∀ (sub : List Char) (p : RawPost), p.post_hint = some ("link".data) →
      extract sub p = none := by
  intro sub p h
  have hc : ("link".data) ∈ mediaHints := by decide
  have hm : isMediaPost p = true := by
    unfold isMediaPost
    rw [h]
    simp [hc]
  unfold extract
  rw [if_pos hm]

/-- Claim C10 witness: a link-hinted post with an otherwise acceptable title
is rejected. -/
theorem extract_rejects_link_posts_witness :
    extract ("funny".data)
      { title := ("A perfectly funny title".data), selftext := [],
        post_hint := some ("link".data), is_gallery := false, url := [],
        permalink := [], ups := 3 } = none :=
  extract_rejects_link_posts _ _ rfl

/-- Claim C2: the cache starts with the non-empty hard-coded fallback set,
and no execution of `refresh_cache` — a fresh no-op, an all-success commit,
an empty-refresh keep, or a merge aborted by the line-145 `NameError` —
turns a non-empty item list into an empty one. -/
theorem cache_items_never_empty :
    initCache.items ≠ [] ∧
      ∀ (c : Cache) (now : Int) (results : List (Except String (List Item))),
        c.items ≠ [] → (refresh_cache c now results).cache.items ≠ [] := by
  constructor
  · simp [initCache, FALLBACK_AFFIRMATIONS]
  · intro c now rs h
    unfold refresh_cache
    by_cases hfresh : now - c.ts < CACHE_TTL ∧ c.items ≠ []
    · rw [if_pos hfresh]
      exact h
    · rw [if_neg hfresh]
      cases hrun : allItems rs with
      | error e => exact h
      | ok xs =>
        by_cases hnew : dedupe xs ≠ []
        · simp only [if_pos hnew]
          exact hnew
        · simp only [if_neg hnew]
          exact h

/-- Claim C2 witness: a stale-cache refresh whose merge yields nothing
still leaves the items non-empty. -/
theorem cache_items_never_empty_witness :
    (refresh_cache initCache 3600 []).cache.items ≠ [] :=
  cache_items_never_empty.2 initCache 3600 []
    (by simp [initCache, FALLBACK_AFFIRMATIONS])

/-- Claim C8: when the cache is fresh (age below the TTL) and its items are
non-empty, `refresh_cache` is a no-op — it issues zero outbound fetches,
raises nothing, and returns the snapshot unchanged. -/
theorem fresh_cache_no_fetch :
    ∀ (c : Cache) (now : Int) (results : List (Except String (List Item))),
      now - c.ts < CACHE_TTL → c.items ≠ [] →
      refresh_cache c now results =
        { cache := c, fetches := 0, raised := none } := by
  intro c now rs h1 h2
  unfold refresh_cache
  rw [if_pos ⟨h1, h2⟩]

/-- Claim C8 witness: a `refresh_cache` call right after a refresh (the
fallback items are present, age `100 < 3600`) fetches nothing and changes
nothing. -/
theorem fresh_cache_no_fetch_witness :
    refresh_cache { items := FALLBACK_AFFIRMATIONS, ts := 100 } 200 [] =
      { cache := { items := FALLBACK_AFFIRMATIONS, ts := 100 }, fetches := 0,
        raised := none } :=
  fresh_cache_no_fetch _ _ _ (by norm_num [CACHE_TTL])
    (by simp [FALLBACK_AFFIRMATIONS])

/-- Claim C5 (code divergence): on a stale cache where every topic fails,
the claim — and the code's own comment on lines 158–161 — expects the old
items kept and `refreshedAt` advanced to `now = 3600`; the program instead
raises `NameError` at line 145 (`sys` is never imported) before reaching
line 161, leaving the whole cache, timestamp included, untouched at
`ts = 0 ≠ 3600`. -/
theorem all_failed_refresh_raises :
    refresh_cache initCache 3600 [Except.error ("boom")] =
      { cache := initCache, fetches := SUBREDDITS.length,
        raised := some pyNameError } ∧
    initCache.ts ≠ 3600 := by
  constructor
  · rfl
  · decide

/-- Claim C1 (code divergence): in the spec's isolation scenario — topic A
returns two valid items, topic B times out — the claim expects the cycle to
complete without throwing and the merged and deduped result to contain
exactly A's two items; the program instead hits line 145 on B's exception,
where `sys.stderr` is evaluated with `sys` never imported, so the cycle
aborts with `NameError`: no merged result exists, the cache is untouched,
and the caller sees the exception. -/
theorem failed_topic_aborts_cycle :
    refresh_cache initCache 3600
        [Except.ok
          [{ line := "Joke one".data, permalink := ("p1".data),
             subreddit := ("A".data), ups := 7 },
           { line := "Joke two".data, permalink := ("p2".data),
             subreddit := ("A".data), ups := 3 }],
         Except.error ("r/B timed out")] =
      { cache := initCache, fetches := SUBREDDITS.length,
        raised := some pyNameError } := by
  rfl

/-- Claim C9: deduplication is idempotent — deduping an already-deduped
sequence returns it unchanged (list equality, hence also set equality). -/
theorem dedupe_idempotent : ∀ items : List Item, dedupe (dedupe items) = dedupe items := by
  intro items
  have hwk := dedupTable_wellKeyed items
  have hnd := dedupTable_keysNodup items
  have hkeys : (dedupe items).map lineKey = (dedupTable items).map Prod.fst := by
    unfold dedupe
    rw [List.map_map]
    exact List.map_congr_left (fun q hq => (hwk q hq).symm)
  have hnd2 : ((dedupe items).map lineKey).Nodup := by
    rw [hkeys]
    exact hnd
  have hfresh : ∀ it ∈ dedupe items,
      lookupKey (lineKey it) ([] : List (List Char × Item)) = none := by
    intro it _
    rfl
  show ((dedupe items).foldl dedupStep []).map Prod.snd = dedupe items
  rw [foldl_dedupStep_fresh _ [] hnd2 hfresh, List.nil_append, List.map_map]
  have hid : (Prod.snd ∘ fun it : Item => (lineKey it, it)) = id := rfl
  rw [hid, List.map_id]

/-- Claim C6: an item is in the deduped output exactly when it is the winner
of its lowercased-line group — the group member with strictly highest
popularity, ties resolved to the earliest in input order — and in the spec's
scenario two case-variants with popularities 10 and 50 collapse to the
single popularity-50 item with its own casing. -/
theorem dedupe_keeps_group_winner :
    (∀ (items : List Item) (it : Item),
       it ∈ dedupe items ↔
         specWinner (items.filter (fun j => decide (lineKey j = lineKey it))) = some it) ∧
    dedupe
        [{ line := "Why did the chicken cross the road?".data,
           permalink := ("pa".data), subreddit := ("A".data), ups := 10 },
         { line := "why did the chicken cross the road?".data,
           permalink := ("pb".data), subreddit := ("B".data), ups := 50 }] =
      [{ line := "why did the chicken cross the road?".data,
         permalink := ("pb".data), subreddit := ("B".data), ups := 50 }] := by
  constructor
  · intro items it
    have hnd := dedupTable_keysNodup items
    have hwk := dedupTable_wellKeyed items
    have hlf : lookupKey (lineKey it) (dedupTable items) =
        specWinner (items.filter (fun j => decide (lineKey j = lineKey it))) := by
      unfold dedupTable
      rw [lookupKey_foldl]
      rfl
    constructor
    · intro hmem
      obtain ⟨q, hq, hq2⟩ := List.mem_map.mp hmem
      have hk : q = (lineKey it, it) := by
        obtain ⟨qk, qv⟩ := q
        have h1 : qk = lineKey qv := hwk _ hq
        cases hq2
        rw [h1]
      rw [hk] at hq
      rw [← hlf]
      exact (mem_iff_lookupKey hnd).mp hq
    · intro hw
      have hl2 : lookupKey (lineKey it) (dedupTable items) = some it := by
        rw [hlf]
        exact hw
      exact List.mem_map.mpr ⟨(lineKey it, it), (mem_iff_lookupKey hnd).mpr hl2, rfl⟩
  · decide

set_option maxRecDepth 20000 in
/-- Claim C3 counterexample: a non-media post with an empty title whose
body's first line passes the Content Filter is nevertheless rejected — the
code filters the whole body text, not its first line, and here the body
runs to 271 characters. -/
theorem extract_first_line_cex :
    isMediaPost longBodyPost = false ∧
    looks_funny (pyStrip longBodyPost.title) = false ∧
    looks_funny (pyStrip (firstLine (pyStrip longBodyPost.selftext))) = true ∧
    extract ("A".data) longBodyPost = none := by decide

/-- Claim C3 as amended: the extractor prefers the stripped title when it
passes the Content Filter; otherwise, when the title fails the filter, the
item is kept if and only if the entire body text (not just its first line)
passes the Content Filter, and the kept line is then the stripped first
line of the stripped body. -/
theorem extract_line_preference :
    ∀ (sub : List Char) (p : RawPost), isMediaPost p = false →
      ((looks_funny (pyStrip p.title) = true →
          extract sub p =
            some { line := pyStrip p.title,
                   permalink := redditBase ++ p.permalink, subreddit := sub,
                   ups := p.ups }) ∧
       (looks_funny (pyStrip p.title) = false →
          ((extract sub p).isSome = looks_funny (pyStrip p.selftext) ∧
           ∀ it : Item, extract sub p = some it →
             it.line = pyStrip (firstLine (pyStrip p.selftext))))) := by
  intro sub p hm
  constructor
  · intro ht
    have hne : pyStrip p.title ≠ [] := looks_funny_ne_nil ht
    have hne' : (pyStrip p.title).isEmpty = false :=
      Bool.eq_false_iff.mpr (fun hh => hne (List.isEmpty_iff.mp hh))
    unfold extract
    rw [if_neg (by simp [hm])]
    simp [ht, hne']
  · intro ht
    cases hs : looks_funny (pyStrip p.selftext) with
    | false =>
      have hval : extract sub p = none := by
        unfold extract
        rw [if_neg (by simp [hm])]
        simp [ht, hs]
      constructor
      · simp [hval]
      · intro it hit
        rw [hval] at hit
        exact Option.noConfusion hit
    | true =>
      have hfl : pyStrip (firstLine (pyStrip p.selftext)) ≠ [] :=
        pyStrip_firstLine_ne_nil (looks_funny_ne_nil hs)
      have hfl' : (pyStrip (firstLine (pyStrip p.selftext))).isEmpty = false :=
        Bool.eq_false_iff.mpr (fun hh => hfl (List.isEmpty_iff.mp hh))
      have hval : extract sub p =
          some { line := pyStrip (firstLine (pyStrip p.selftext)),
                 permalink := redditBase ++ p.permalink, subreddit := sub,
                 ups := p.ups } := by
        unfold extract
        rw [if_neg (by simp [hm])]
        simp [ht, hs, hfl']
      constructor
      · simp [hval]
      · intro it hit
        rw [hval, Option.some.injEq] at hit
        rw [← hit]

/-- Claim C3 witness: a post with a passing title keeps the title; a post
with an empty title and a two-line body whose whole text passes the filter
is kept with the body's first line. -/
theorem extract_line_preference_witness :
    extract ("A".data) titlePost =
      some { line := pyStrip titlePost.title,
             permalink := redditBase ++ titlePost.permalink,
             subreddit := ("A".data), ups := titlePost.ups } ∧
    (extract ("B".data) bodyPost).isSome = looks_funny (pyStrip bodyPost.selftext) :=
  ⟨(extract_line_preference ("A".data) titlePost (by decide)).1 (by decide),
   ((extract_line_preference ("B".data) bodyPost (by decide)).2 (by decide)).1⟩

end PickMeUp
